import Mathlib

/-!
Shallow embedding of src/HighLevelAnalyzer.py (Saleae VPC3 SPI memory
high-level analyzer) and verification of its specification claims.

Modelling conventions:
- Timestamps are integers in nanoseconds.  The source works with capture
  timestamps whose difference, times 1e9, gives a nanosecond duration as a
  float; we model the duration computation exactly over the integers, so
  calc_delta already yields nanoseconds and the int() truncations in
  indicate_violation are the identity.
- Byte values are natural numbers (a real mosi/miso byte is below 256).
- The decoder object`s mutable attributes become the record HLAState and
  each decode(frame) call becomes an explicit state-passing step.  A Python
  attribute that may be read before it was ever assigned is modelled with
  Option (none = attribute absent); st.address uses none for Python None.
- A decode call that raises an uncaught Python exception (KeyError from an
  unguarded frame_config lookup, ValueError from int(address_setting, 0),
  AttributeError / TypeError from an unset or None attribute) is modelled
  as the step returning none.
- The StringSetting address_setting is modelled by the outcome of
  int(address_setting, 0): some v for a well-formed decimal or hex literal,
  none when the string is malformed (ValueError at evaluation time).
-/

namespace VPC3

/-- Parser state constants, lines 17-22 of the source. -/
def STATE_START : Nat := 0

def STATE_CMD : Nat := 1

def STATE_ADDR_H : Nat := 2

def STATE_ADDR_L : Nat := 3

def STATE_DATA : Nat := 4

def STATE_NO_DATA : Nat := 5

/-- One row of the frame_config table: readable name, next state after the
command byte, state after the address phase, filter category name, and the
data line (mosi or miso) carrying the payload. -/
structure CmdCfg where
  name : String
  next_state : Nat
  last_state : Nat
  filter_cat : String
  data_line : String
deriving DecidableEq

/-- The frame_config dictionary (lines 39-45): the four supported VPC3
commands 0x13, 0x03, 0x12, 0x02.  A missing key is none. -/
def frame_config (cmd : Nat) : Option CmdCfg :=
  if cmd = 0x13 then some ⟨"Read Byte", STATE_ADDR_H, STATE_DATA, "READ_BYTE", "miso"⟩
  else if cmd = 0x03 then some ⟨"Read Array", STATE_ADDR_H, STATE_DATA, "READ_ARRAY", "miso"⟩
  else if cmd = 0x12 then some ⟨"Write Byte", STATE_ADDR_H, STATE_DATA, "WRITE_BYTE", "mosi"⟩
  else if cmd = 0x02 then some ⟨"Write Array", STATE_ADDR_H, STATE_DATA, "WRITE_ARRAY", "mosi"⟩
  else none

/-- cmd_to_str (lines 82-86): table lookup with try/except fallback. -/
def cmd_to_str (command : Nat) : String :=
  match frame_config command with
  | some c => c.name
  | none => "Unknown"

/-- get_next_state (lines 88-92): table lookup with try/except fallback. -/
def get_next_state (command : Nat) : Nat :=
  match frame_config command with
  | some c => c.next_state
  | none => STATE_NO_DATA

/-- get_last_state (lines 94-98): table lookup with try/except fallback. -/
def get_last_state (command : Nat) : Nat :=
  match frame_config command with
  | some c => c.last_state
  | none => STATE_NO_DATA

/-- calc_delta (lines 100-104): 0 when the start timestamp is the 0
sentinel, otherwise the elapsed time in nanoseconds. -/
def calc_delta (timestampStart timeStampEnd : Int) : Int :=
  if timestampStart = 0 then 0 else timeStampEnd - timestampStart

/-- show_cmd (lines 106-116).  The branch comparing filter_name against
frame_config[command][IDX_FILTER] indexes the table WITHOUT a try/except,
so an unrecognized command raises KeyError (modelled as none) whenever the
filter is neither "no filter" nor "Timing_Violations". -/
def show_cmd (filter_name : String) (command : Nat) : Option Nat :=
  if filter_name = "no filter" then some 1
  else if filter_name = "Timing_Violations" then some 0
  else
    match frame_config command with
    | none => none
    | some c =>
      if filter_name = c.filter_cat then some 1
      else if filter_name = "Address" then some 3
      else some 2

/-- The analyzer settings (lines 56-63), fixed for a whole run. -/
structure Settings where
  filter_setting : String
  address_value : Option Nat
  highlight_cmd_only : String
  timeCsToFirstByte : Int
  timelastByteToCs : Int
  timeByteToByte : Int
deriving DecidableEq

/-- Output frames produced by the analyzer (result_types, lines 65-70). -/
inductive Frame where
  | Command (start_time end_time : Int) (command : String)
  | Address (start_time end_time : Int) (address : Nat) (addressHex : String)
  | Data (start_time end_time : Int) (data : List Nat)
  | TimingViolation (start_time end_time : Int) (delta_ns maxTiming : Int)
deriving DecidableEq

/-- Input events: enable (CS assert, start = end so one timestamp), result
(one byte exchanged on both lines), disable (CS deassert). -/
inductive SpiEvent where
  | enable (t : Int)
  | result (start_time end_time : Int) (mosi miso : Nat)
  | disable (start_time end_time : Int)
deriving DecidableEq

/-- The mutable attributes of the HLA_SPI_MEMORY instance.  Option fields
model attributes that some reachable read may find unset (none); in
particular data_frame_start/end are only ever assigned while consuming a
data byte (the resets at lines 151-152 are commented out), and address is
Python None from the command byte until the address-high byte. -/
structure HLAState where
  state : Option Nat
  command : Nat
  address : Option Nat
  data : List Nat
  data_byte_cnt : Nat
  showInstruction : Nat
  showInfo : Nat
  timingViolation : String
  last_cs_asserted : Int
  last_cs_deasserted : Int
  last_start_time_byte : Int
  last_end_time_byte : Int
  cmd_frame_start : Int
  cmd_frame_end : Int
  address_frame_start : Option Int
  address_frame_end : Option Int
  data_frame_start : Option Int
  data_frame_end : Option Int
deriving DecidableEq

/-- The decoder before any event: no per-transaction attribute has been
assigned yet (the line 80 assignment sets a local, not self.state). -/
def initState : HLAState :=
  { state := none, command := 0, address := none, data := [], data_byte_cnt := 0,
    showInstruction := 0, showInfo := 0, timingViolation := "",
    last_cs_asserted := 0, last_cs_deasserted := 0,
    last_start_time_byte := 0, last_end_time_byte := 0,
    cmd_frame_start := 0, cmd_frame_end := 0,
    address_frame_start := none, address_frame_end := none,
    data_frame_start := none, data_frame_end := none }

/-- indicate_violation (lines 118-127): updates the rolling byte
timestamps and returns one TimingViolation frame. -/
def indicate_violation (st : HLAState)
    (maxTiming delta framestart frameend start_time end_time : Int) :
    HLAState × List Frame :=
  ({ st with last_end_time_byte := end_time, last_start_time_byte := start_time },
   [Frame.TimingViolation framestart frameend delta maxTiming])

/-- The showInfo computation at deassert (lines 259-265 and 272-278):
parse the configured address (none = ValueError) and compare it with the
decoded address (a comparison against Python None is simply false). -/
def showInfoCalc (cfg : Settings) (addr : Option Nat) : Option Nat :=
  if cfg.filter_setting = "Address" then
    match cfg.address_value with
    | none => none
    | some w => some (if addr = some w then 1 else 0)
  else some 1

/-- The enable branch (lines 140-152): enter STATE_CMD, remember the
assert timestamp, zero the rolling byte timestamps and the deassert
timestamp.  Nothing else is touched. -/
def decodeEnable (st : HLAState) (t : Int) : HLAState × List Frame :=
  ({ st with state := some STATE_CMD, last_cs_asserted := t,
             last_start_time_byte := 0, last_end_time_byte := 0,
             last_cs_deasserted := 0 }, [])

/-- The result branch (lines 153-244), one byte exchanged while CS is
active.  Reading self.state while it is unset is an AttributeError
(none). -/
def decodeResult (cfg : Settings) (st : HLAState) (s e : Int) (mosi miso : Nat) :
    Option (HLAState × List Frame) :=
  match st.state with
  | none => none
  | some st0 =>
    if st0 = STATE_CMD then
      let st1 : HLAState :=
        { st with command := mosi, address := none, data := [], data_byte_cnt := 0,
                  showInstruction := 1, timingViolation := "violation",
                  last_end_time_byte := e, last_start_time_byte := s,
                  cmd_frame_start := s, cmd_frame_end := e,
                  state := some (get_next_state mosi) }
      match show_cmd cfg.filter_setting mosi with
      | none => none
      | some si =>
        let st2 : HLAState :=
          if si = 2 then { st1 with showInstruction := 0, state := some STATE_NO_DATA }
          else if si = 3 then { st1 with showInstruction := 0 }
          else { st1 with showInstruction := si }
        if st2.showInstruction = 1 then some (st2, [])
        else if cfg.filter_setting = "Timing_Violations" then
          let delta := calc_delta st2.last_cs_asserted st2.last_start_time_byte
          if delta > cfg.timeCsToFirstByte then
            some (indicate_violation st2 cfg.timeCsToFirstByte delta
                    st2.last_cs_asserted st2.last_start_time_byte s e)
          else some (st2, [])
        else some (st2, [])
    else if st0 = STATE_ADDR_H then
      let st1 : HLAState :=
        { st with address_frame_start := some s, state := some STATE_ADDR_L,
                  address := some (mosi <<< 8) }
      if cfg.filter_setting = "Timing_Violations" then
        let delta := calc_delta st1.last_end_time_byte s
        if delta > cfg.timeByteToByte then
          some (indicate_violation st1 cfg.timeByteToByte delta
                  st1.last_end_time_byte s s e)
        else some ({ st1 with last_end_time_byte := e, last_start_time_byte := s }, [])
      else some ({ st1 with last_end_time_byte := e, last_start_time_byte := s }, [])
    else if st0 = STATE_ADDR_L then
      match st.address with
      | none => none
      | some a =>
        let st1 : HLAState :=
          { st with address := some (a ||| mosi),
                    state := some (get_last_state st.command),
                    data_byte_cnt := 0, address_frame_end := some e }
        if cfg.filter_setting = "Timing_Violations" then
          let delta := calc_delta st1.last_end_time_byte s
          if delta > cfg.timeByteToByte then
            some (indicate_violation st1 cfg.timeByteToByte delta
                    st1.last_end_time_byte s s e)
          else some ({ st1 with last_end_time_byte := e, last_start_time_byte := s }, [])
        else some ({ st1 with last_end_time_byte := e, last_start_time_byte := s }, [])
    else if st0 = STATE_DATA then
      let st1 : HLAState :=
        if st.data_byte_cnt = 0 then { st with data_frame_start := some s } else st
      let st2 : HLAState := { st1 with data_byte_cnt := st1.data_byte_cnt + 1 }
      match frame_config st.command with
      | none => none
      | some c =>
        let b := if c.data_line = "miso" then miso else mosi
        let st3 : HLAState := { st2 with data := st2.data ++ [b], data_frame_end := some e }
        if cfg.filter_setting = "Timing_Violations" then
          let delta := calc_delta st3.last_end_time_byte s
          if delta > cfg.timeByteToByte then
            some (indicate_violation st3 cfg.timeByteToByte delta
                    st3.last_end_time_byte s s e)
          else some ({ st3 with last_end_time_byte := e, last_start_time_byte := s }, [])
        else some ({ st3 with last_end_time_byte := e, last_start_time_byte := s }, [])
    else some (st, [])

/-- hex(n) for a nonnegative int: lowercase hex digits with an 0x prefix. -/
def pyHex (n : Nat) : String :=
  "0x" ++ ⟨Nat.toDigits 16 n⟩

/-- The disable branch (lines 248-298).  With the timing filter only the
last-byte-to-deassert check runs; otherwise, when the machine is in
STATE_DATA, highlight_cmd_only selects between a single Command frame and
the atomic Command/Address/Data triple, both gated by showInfoCalc. -/
def decodeDisable (cfg : Settings) (st : HLAState) (s e : Int) :
    Option (HLAState × List Frame) :=
  let st1 : HLAState := { st with last_cs_deasserted := s }
  if cfg.filter_setting = "Timing_Violations" then
    let delta := calc_delta st1.last_end_time_byte st1.last_cs_deasserted
    if delta > cfg.timelastByteToCs then
      some (indicate_violation st1 cfg.timelastByteToCs delta
              st1.last_end_time_byte st1.last_cs_deasserted s e)
    else some (st1, [])
  else
    match st1.state with
    | none => none
    | some st0 =>
      if st0 = STATE_DATA then
        if cfg.highlight_cmd_only = "yes" then
          match showInfoCalc cfg st1.address with
          | none => none
          | some sh =>
            let st2 : HLAState := { st1 with showInfo := sh }
            if sh = 1 then
              some (st2, [Frame.Command st2.cmd_frame_start st2.cmd_frame_end
                            (cmd_to_str st2.command)])
            else some (st2, [])
        else
          match showInfoCalc cfg st1.address with
          | none => none
          | some sh =>
            let st2 : HLAState := { st1 with showInfo := sh }
            if sh = 1 then
              match st2.address_frame_start, st2.address_frame_end, st2.address,
                    st2.data_frame_start, st2.data_frame_end with
              | some afs, some afe, some addr, some dfs, some dfe =>
                some (st2, [Frame.Command st2.cmd_frame_start st2.cmd_frame_end
                              (cmd_to_str st2.command),
                            Frame.Address afs afe addr (pyHex addr),
                            Frame.Data dfs dfe st2.data])
              | _, _, _, _, _ => none
            else some (st2, [])
      else some (st1, [])

/-- decode (lines 129-298): one event-handling call. -/
def decode (cfg : Settings) (st : HLAState) (ev : SpiEvent) :
    Option (HLAState × List Frame) :=
  match ev with
  | .enable t => some (decodeEnable st t)
  | .result s e mosi miso => decodeResult cfg st s e mosi miso
  | .disable s e => decodeDisable cfg st s e

/-- Run decode over an event list, threading the state and concatenating
the emitted frames; an exception in any step aborts the run (none). -/
def runFrom (cfg : Settings) : HLAState → List SpiEvent → Option (HLAState × List Frame)
  | st, [] => some (st, [])
  | st, ev :: evs =>
    match decode cfg st ev with
    | none => none
    | some (st1, fs) =>
      match runFrom cfg st1 evs with
      | none => none
      | some (st2, fs2) => some (st2, fs ++ fs2)

/-- Settings with no filter and mark-command-only disabled. -/
def cfgNF : Settings :=
  { filter_setting := "no filter", address_value := none, highlight_cmd_only := "no",
    timeCsToFirstByte := 0, timelastByteToCs := 0, timeByteToByte := 0 }

/-- Settings with the timing-violations filter and the three thresholds. -/
def cfgT (t1 t2 t3 : Int) : Settings :=
  { filter_setting := "Timing_Violations", address_value := none, highlight_cmd_only := "no",
    timeCsToFirstByte := t1, timelastByteToCs := t2, timeByteToByte := t3 }

/-- Settings with the Address filter and a well-formed configured value. -/
def cfgAddr (v : Nat) : Settings :=
  { filter_setting := "Address", address_value := some v, highlight_cmd_only := "no",
    timeCsToFirstByte := 0, timelastByteToCs := 0, timeByteToByte := 0 }

/-- Pack a byte event (start, end, mosi, miso) as an SpiEvent. -/
def resultEv (q : Int × Int × Nat × Nat) : SpiEvent :=
  SpiEvent.result q.1 q.2.1 q.2.2.1 q.2.2.2

/-- The frames the timing-violation mode is specified (as amended) to emit
for one event: a single TimingViolation frame exactly when the computed
delta (with the 0-start sentinel collapsing to 0) strictly exceeds the
threshold for that check, carrying the computed delta and the threshold;
never a Command, Address or Data frame.  The reference pair is
(last_cs_asserted, byte start) at the command byte, (tracked previous byte
end, byte start) at address/data bytes, and (tracked last byte end,
deassert start) at deassert; bytes consumed in the NoData state are not
checked. -/
def spec_timing_frames (cfg : Settings) (st : HLAState) (ev : SpiEvent) : List Frame :=
  match ev with
  | .enable _ => []
  | .result s _ _ _ =>
    match st.state with
    | none => []
    | some st0 =>
      if st0 = STATE_CMD then
        let d := calc_delta st.last_cs_asserted s
        if d > cfg.timeCsToFirstByte then
          [Frame.TimingViolation st.last_cs_asserted s d cfg.timeCsToFirstByte]
        else []
      else if st0 = STATE_ADDR_H ∨ st0 = STATE_ADDR_L ∨ st0 = STATE_DATA then
        let d := calc_delta st.last_end_time_byte s
        if d > cfg.timeByteToByte then
          [Frame.TimingViolation st.last_end_time_byte s d cfg.timeByteToByte]
        else []
      else []
  | .disable s _ =>
    let d := calc_delta st.last_end_time_byte s
    if d > cfg.timelastByteToCs then
      [Frame.TimingViolation st.last_end_time_byte s d cfg.timelastByteToCs]
    else []

/-- Settings with no filter and mark-command-only enabled. -/
def cfgNFyes : Settings :=
  { cfgNF with highlight_cmd_only := "yes" }

/-- Example decoder state immediately after a select-assert at t = 1. -/
def exAfterEnable : HLAState :=
  { initState with
      state := some STATE_CMD,
      last_cs_asserted := 1 }

/-- Example decoder state right after the command byte 0x03 on [10,20] was
processed under the timing filter (state taken from the frame_config row,
rolling byte timestamps at the command byte). -/
def exAfterCmd : HLAState :=
  { initState with
      state := some STATE_ADDR_H,
      command := 3,
      showInstruction := 0,
      timingViolation := "violation",
      last_cs_asserted := 1,
      last_start_time_byte := 10,
      last_end_time_byte := 20,
      cmd_frame_start := 10,
      cmd_frame_end := 20 }

/-- Example decoder state sitting in the data phase. -/
def exStateData : HLAState :=
  { initState with state := some STATE_DATA }

/-- C1: with no filter and mark_command_only = no, the canonical
transaction assert at t=0, command byte on [10,20], address-high on
[20,30], address-low on [30,40], one data byte on [40,50], then deassert
emits, atomically at the deassert event and in this order, a Command frame
spanning [10,20], an Address frame spanning [20,40] whose value is
(high <<< 8) ||| low, and a Data frame spanning [40,50]; the run up to
(but excluding) the deassert emits no frame at all. -/
theorem c1_three_frames (cmd hi lo d : Nat)
    (h : cmd = 0x13 ∨ cmd = 0x03 ∨ cmd = 0x12 ∨ cmd = 0x02) :
    (runFrom cfgNF initState
        [SpiEvent.enable 0, SpiEvent.result 10 20 cmd 0, SpiEvent.result 20 30 hi 0,
         SpiEvent.result 30 40 lo 0, SpiEvent.result 40 50 d d,
         SpiEvent.disable 60 61]).map Prod.snd
      = some [Frame.Command 10 20 (cmd_to_str cmd),
              Frame.Address 20 40 ((hi <<< 8) ||| lo) (pyHex ((hi <<< 8) ||| lo)),
              Frame.Data 40 50 [d]]
    ∧ (runFrom cfgNF initState
        [SpiEvent.enable 0, SpiEvent.result 10 20 cmd 0, SpiEvent.result 20 30 hi 0,
         SpiEvent.result 30 40 lo 0, SpiEvent.result 40 50 d d]).map Prod.snd
      = some [] := by
  rcases h with h | h | h | h <;> subst h <;> exact ⟨rfl, rfl⟩

/-- Witness for c1_three_frames at command 0x13, high 1, low 2, data 3. -/
theorem c1_three_frames_witness :
    (runFrom cfgNF initState
        [SpiEvent.enable 0, SpiEvent.result 10 20 0x13 0, SpiEvent.result 20 30 1 0,
         SpiEvent.result 30 40 2 0, SpiEvent.result 40 50 3 3,
         SpiEvent.disable 60 61]).map Prod.snd
      = some [Frame.Command 10 20 (cmd_to_str 0x13),
              Frame.Address 20 40 ((1 <<< 8) ||| 2) (pyHex ((1 <<< 8) ||| 2)),
              Frame.Data 40 50 [3]] :=
  (c1_three_frames 0x13 1 2 3 (Or.inl rfl)).1

/-- C2 counterexample: with the timing filter and threshold
timeCsToFirstByte = 5, an assert at t = 0 followed by a command byte on
[10,20] has an assert-to-first-byte gap of 10 > 5, yet no TimingViolation
frame is emitted, because calc_delta treats the start timestamp 0 as the
no-prior-reference sentinel and returns 0.  So a violation frame is NOT
emitted whenever the gap exceeds the threshold, refuting the iff as
stated. -/
theorem c2_counterexample :
    (runFrom (cfgT 5 1000000 1000000) initState
        [SpiEvent.enable 0, SpiEvent.result 10 20 3 0]).map Prod.snd
      = some [] := rfl

/-- C3: under a command-category filter (here READ_BYTE; the Address
filter behaves the same), an unrecognized command byte (0xFF) in the
AwaitingCommand state IS a fatal error: show_cmd indexes frame_config
without a guard and raises KeyError, aborting decode, although
get_next_state would route to NoData and cmd_to_str resolves to Unknown
exactly as the claim and the surrounding guarded lookups intend. -/
theorem c3_unknown_cmd_keyerror :
    runFrom { cfgNF with filter_setting := "READ_BYTE" } initState
        [SpiEvent.enable 0, SpiEvent.result 10 20 0xFF 0] = none
    ∧ show_cmd "READ_BYTE" 0xFF = none
    ∧ show_cmd "Address" 0xFF = none
    ∧ get_next_state 0xFF = STATE_NO_DATA
    ∧ cmd_to_str 0xFF = "Unknown" := by
  exact ⟨rfl, rfl, rfl, rfl, rfl⟩

/-- C4 counterexample: with the timing filter (timeCsToFirstByte huge,
timelastByteToCs = 5), a transaction whose first byte is the unrecognized
command 0xFF on [10,20], a further byte on [30,40], and deassert at 100
emits a TimingViolation frame for the LAST-BYTE-TO-DEASSERT gap (span
[20,100], delta 80, threshold 5 = timelastByteToCs): the rolling reference
stays at the command byte end because NoData bytes do not update it, and
the deassert check still fires.  This frame is not an assert-to-first-byte
violation (that gap is 9, within its threshold 1000000), refuting the
claim that such a violation is the sole possible output. -/
theorem c4_counterexample :
    (runFrom (cfgT 1000000 5 1000000) initState
        [SpiEvent.enable 1, SpiEvent.result 10 20 0xFF 0, SpiEvent.result 30 40 0xAA 0,
         SpiEvent.disable 100 101]).map Prod.snd
      = some [Frame.TimingViolation 20 100 80 5] := rfl

/-- C8 counterexample: processing a select-assert at t = 5 from a state
still holding command 99, address 7 and payload [1] leaves those three
fields untouched (they are only reset when the command byte arrives) and
sets the rolling last_byte_start/last_byte_end references to the 0
sentinel, not to the assert timestamp 5 — refuting both the claimed
full reset and the claimed recording of the assert timestamp as the
last-byte reference. -/
theorem c8_counterexample :
    (decode cfgNF { initState with command := 99, address := some 7, data := [1] }
        (SpiEvent.enable 5)).map
      (fun p => (p.1.state, p.1.command, p.1.address, p.1.data,
                 p.1.last_start_time_byte, p.1.last_end_time_byte,
                 p.1.last_cs_asserted, p.2))
      = some (some STATE_CMD, 99, some 7, [1], 0, 0, 5, []) := rfl

/-- C8 (amended): on every select-assert event, from any state and under
any settings, the machine enters AwaitingCommand, records the assert
timestamp in last_cs_asserted, and initializes last_byte_start,
last_byte_end and last_cs_deasserted to the 0 sentinel (not to the assert
timestamp); command, address and payload are left as they were — they are
reset when the command byte is processed, not at assert — and no frame is
emitted. -/
theorem c8_enable_step (cfg : Settings) (st : HLAState) (t : Int) :
    decode cfg st (SpiEvent.enable t)
      = some ({ st with state := some STATE_CMD, last_cs_asserted := t,
                        last_start_time_byte := 0, last_end_time_byte := 0,
                        last_cs_deasserted := 0 }, []) := rfl

/-- C9: the decoder is deterministic — for a fixed configuration, running
the same event sequence twice from the freshly initialized state yields
identical outcomes (same frames in the same order with the same payloads
and timestamps, or the same failure). -/
theorem c9_deterministic (cfg : Settings) (evs : List SpiEvent)
    (out1 out2 : Option (HLAState × List Frame))
    (h1 : runFrom cfg initState evs = out1)
    (h2 : runFrom cfg initState evs = out2) :
    out1 = out2 := by rw [← h1, ← h2]

/-- Witness for c9_deterministic at the empty event list. -/
theorem c9_deterministic_witness :
    (some (initState, ([] : List Frame)) : Option (HLAState × List Frame))
      = some (initState, ([] : List Frame)) :=
  c9_deterministic cfgNF [] _ _ rfl rfl

/-- C10: a transaction with a recognized command and both address bytes
but zero data bytes still reaches STATE_DATA, so deassert takes the
three-frame path.  On the first such cycle since startup the
data_frame_start/end attributes were never assigned and the read fails
(decode aborts, modelling the AttributeError), and after a previous cycle
that did carry a data byte on [40,50] the emitted Data frame reuses those
stale timestamps with an empty payload. -/
theorem c10_zero_data (cmd : Nat)
    (h : cmd = 0x13 ∨ cmd = 0x03 ∨ cmd = 0x12 ∨ cmd = 0x02) :
    runFrom cfgNF initState
        [SpiEvent.enable 100, SpiEvent.result 110 120 cmd 0, SpiEvent.result 120 130 0x11 0,
         SpiEvent.result 130 140 0x22 0, SpiEvent.disable 150 151] = none
    ∧ (runFrom cfgNF initState
        ([SpiEvent.enable 0, SpiEvent.result 10 20 cmd 0, SpiEvent.result 20 30 0xAA 0,
          SpiEvent.result 30 40 0xBB 0, SpiEvent.result 40 50 0xEE 0xEE,
          SpiEvent.disable 60 61] ++
         [SpiEvent.enable 100, SpiEvent.result 110 120 cmd 0, SpiEvent.result 120 130 0x11 0,
          SpiEvent.result 130 140 0x22 0, SpiEvent.disable 150 151])).map Prod.snd
      = some [Frame.Command 10 20 (cmd_to_str cmd),
              Frame.Address 20 40 43707 "0xaabb",
              Frame.Data 40 50 [0xEE],
              Frame.Command 110 120 (cmd_to_str cmd),
              Frame.Address 120 140 4386 "0x1122",
              Frame.Data 40 50 []] := by
  rcases h with h | h | h | h <;> subst h <;> exact ⟨rfl, rfl⟩

/-- Witness for c10_zero_data at command 0x13. -/
theorem c10_zero_data_witness :
    runFrom cfgNF initState
        [SpiEvent.enable 100, SpiEvent.result 110 120 0x13 0, SpiEvent.result 120 130 0x11 0,
         SpiEvent.result 130 140 0x22 0, SpiEvent.disable 150 151] = none :=
  (c10_zero_data 0x13 (Or.inl rfl)).1

set_option maxHeartbeats 1000000

/-- Helper: a byte event received while in the NoData state is inert — no
state change, no frames, no timing check. -/
theorem nodata_result_step (cfg : Settings) (st : HLAState) (s e : Int) (m mi : Nat)
    (h : st.state = some STATE_NO_DATA) :
    decode cfg st (SpiEvent.result s e m mi) = some (st, []) := by
  simp only [decode]
  unfold decodeResult
  rw [h]
  simp [STATE_NO_DATA, STATE_CMD, STATE_ADDR_H, STATE_ADDR_L, STATE_DATA]

/-- Helper: any run of byte events from the NoData state is inert. -/
theorem nodata_run (cfg : Settings) (st : HLAState)
    (h : st.state = some STATE_NO_DATA) (qs : List (Int × Int × Nat × Nat)) :
    runFrom cfg st (qs.map resultEv) = some (st, []) := by
  induction qs with
  | nil => simp [runFrom]
  | cons q qs ih =>
    simp [runFrom, resultEv,
      nodata_result_step cfg st q.1 q.2.1 q.2.2.1 q.2.2.2 h, ih]

/-- Helper: runFrom distributes over list append, concatenating frames. -/
theorem runFrom_append (cfg : Settings) (st : HLAState) (l1 l2 : List SpiEvent) :
    runFrom cfg st (l1 ++ l2)
      = match runFrom cfg st l1 with
        | none => none
        | some (st1, fs) =>
          match runFrom cfg st1 l2 with
          | none => none
          | some (st2, fs2) => some (st2, fs ++ fs2) := by
  induction l1 generalizing st with
  | nil =>
    simp only [List.nil_append, runFrom]
    cases runFrom cfg st l2 with
    | none => rfl
    | some q => obtain ⟨st2, fs2⟩ := q; simp
  | cons ev l1 ih =>
    simp only [List.cons_append, runFrom]
    cases decode cfg st ev with
    | none => rfl
    | some p =>
      obtain ⟨st1, fs⟩ := p
      simp only [List.append_eq]
      rw [ih]
      cases h1 : runFrom cfg st1 l1 with
      | none => simp
      | some q =>
        obtain ⟨st2, fs2⟩ := q
        cases h2 : runFrom cfg st2 l2 with
        | none => simp [h2]
        | some r => obtain ⟨st3, fs3⟩ := r; simp [h2]

/-- C2 (amended): with the timing-violations filter, every decode step
emits exactly the frames described by spec_timing_frames — a single
TimingViolation frame carrying the computed delta and the threshold
exactly when the computed delta (0 whenever the start reference is the 0
sentinel, which an assert at t = 0 also produces) strictly exceeds the
threshold of that check, and never a Command, Address or Data frame. -/
theorem c2_timing_refinement (cfg : Settings) (st : HLAState) (ev : SpiEvent)
    (st1 : HLAState) (fs : List Frame)
    (hf : cfg.filter_setting = "Timing_Violations")
    (hd : decode cfg st ev = some (st1, fs)) :
    fs = spec_timing_frames cfg st ev := by
  cases ev with
  | enable t =>
    simp only [decode, decodeEnable] at hd
    rw [Option.some.injEq, Prod.mk.injEq] at hd
    obtain ⟨hs, hfs⟩ := hd
    subst hfs
    simp [spec_timing_frames]
  | result s e mosi miso =>
    simp only [decode] at hd
    unfold decodeResult at hd
    rcases hst : st.state with _ | st0
    · rw [hst] at hd; simp at hd
    · simp only [hst] at hd
      by_cases h0 : st0 = STATE_CMD
      · rw [if_pos h0] at hd
        rw [hf] at hd
        simp [show_cmd] at hd
        split at hd <;>
          (rw [Option.some.injEq, Prod.mk.injEq] at hd;
           obtain ⟨hs, hfs⟩ := hd; subst hfs;
           simp_all [spec_timing_frames, indicate_violation])
      · rw [if_neg h0] at hd
        by_cases hA : st0 = STATE_ADDR_H
        · rw [if_pos hA] at hd
          rw [hf] at hd
          simp at hd
          split at hd <;>
            (rw [Option.some.injEq, Prod.mk.injEq] at hd;
             obtain ⟨hs, hfs⟩ := hd; subst hfs;
             simp_all [spec_timing_frames, indicate_violation])
        · rw [if_neg hA] at hd
          by_cases hL : st0 = STATE_ADDR_L
          · rw [if_pos hL] at hd
            rcases hsa : st.address with _ | a
            · simp only [hsa] at hd; simp at hd
            · simp only [hsa] at hd
              rw [hf] at hd
              simp at hd
              split at hd <;>
                (rw [Option.some.injEq, Prod.mk.injEq] at hd;
                 obtain ⟨hs, hfs⟩ := hd; subst hfs;
                 simp_all [spec_timing_frames, indicate_violation])
          · rw [if_neg hL] at hd
            by_cases hD : st0 = STATE_DATA
            · rw [if_pos hD] at hd
              by_cases hcnt : st.data_byte_cnt = 0 <;>
                (first | rw [if_pos hcnt] at hd | rw [if_neg hcnt] at hd) <;>
                rcases hfc : frame_config st.command with _ | c
              case pos.none => simp only [hfc] at hd; simp at hd
              case neg.none => simp only [hfc] at hd; simp at hd
              all_goals simp only [hfc] at hd
              all_goals rw [hf] at hd
              all_goals simp at hd
              all_goals
                split at hd <;>
                  (rw [Option.some.injEq, Prod.mk.injEq] at hd;
                   obtain ⟨hs, hfs⟩ := hd; subst hfs;
                   simp_all [spec_timing_frames, indicate_violation])
            · rw [if_neg hD] at hd
              rw [Option.some.injEq, Prod.mk.injEq] at hd
              obtain ⟨hs, hfs⟩ := hd; subst hfs
              simp_all [spec_timing_frames]
  | disable s e =>
    simp only [decode] at hd
    unfold decodeDisable at hd
    rw [hf] at hd
    simp at hd
    split at hd <;>
      (rw [Option.some.injEq, Prod.mk.injEq] at hd;
       obtain ⟨hs, hfs⟩ := hd; subst hfs;
       simp_all [spec_timing_frames, indicate_violation])

/-- Witness for c2_timing_refinement: a deassert from the freshly
initialized state emits no frame (sentinel reference), matching the
spec-side description. -/
theorem c2_timing_refinement_witness :
    ([] : List Frame) = spec_timing_frames (cfgT 7 8 9) initState (SpiEvent.disable 7 8) :=
  c2_timing_refinement (cfgT 7 8 9) initState (SpiEvent.disable 7 8)
    { initState with last_cs_deasserted := 7 } [] rfl rfl

/-- C4 (amended): under the "no filter" and timing-violations filter
settings, a transaction whose first byte is an unrecognized command,
followed by any further byte events and then deassert, emits no frames
except possibly, with the timing filter, one violation for the
assert-to-first-byte gap at the command byte and one at deassert for the
gap from the tracked last byte (the command byte, since NoData bytes do
not update the reference) to deassert. -/
theorem c4_unknown_cmd (cfg : Settings)
    (hflt : cfg.filter_setting = "no filter" ∨ cfg.filter_setting = "Timing_Violations")
    (c : Nat) (hc : frame_config c = none)
    (t0 s0 e0 : Int) (m : Nat) (qs : List (Int × Int × Nat × Nat)) (sd ed : Int) :
    (runFrom cfg initState
        ([SpiEvent.enable t0, SpiEvent.result s0 e0 c m] ++ qs.map resultEv ++
         [SpiEvent.disable sd ed])).map Prod.snd
      = some
        ((if cfg.filter_setting = "Timing_Violations" ∧
             calc_delta t0 s0 > cfg.timeCsToFirstByte then
            [Frame.TimingViolation t0 s0 (calc_delta t0 s0) cfg.timeCsToFirstByte]
          else []) ++
         (if cfg.filter_setting = "Timing_Violations" ∧
             calc_delta e0 sd > cfg.timelastByteToCs then
            [Frame.TimingViolation e0 sd (calc_delta e0 sd) cfg.timelastByteToCs]
          else [])) := by
  have h1 : decode cfg initState (SpiEvent.enable t0)
      = some ({ initState with
                  state := some STATE_CMD,
                  last_cs_asserted := t0 }, []) := rfl
  rw [show ([SpiEvent.enable t0, SpiEvent.result s0 e0 c m] ++ qs.map resultEv ++
       [SpiEvent.disable sd ed])
    = SpiEvent.enable t0 :: SpiEvent.result s0 e0 c m ::
      (qs.map resultEv ++ [SpiEvent.disable sd ed]) by simp]
  rcases hflt with hflt | hflt
  · -- no filter
    have h2 : decode cfg
        { initState with
            state := some STATE_CMD,
            last_cs_asserted := t0 }
        (SpiEvent.result s0 e0 c m)
        = some ({ initState with
                    state := some STATE_NO_DATA,
                    command := c,
                    address := none,
                    data := [],
                    data_byte_cnt := 0,
                    showInstruction := 1,
                    timingViolation := "violation",
                    last_cs_asserted := t0,
                    last_start_time_byte := s0,
                    last_end_time_byte := e0,
                    cmd_frame_start := s0,
                    cmd_frame_end := e0 }, []) := by
      simp only [decode]
      unfold decodeResult
      simp [hflt, show_cmd, get_next_state, hc, STATE_CMD]
    have h3 : runFrom cfg
        { initState with
            state := some STATE_NO_DATA,
            command := c,
            address := none,
            data := [],
            data_byte_cnt := 0,
            showInstruction := 1,
            timingViolation := "violation",
            last_cs_asserted := t0,
            last_start_time_byte := s0,
            last_end_time_byte := e0,
            cmd_frame_start := s0,
            cmd_frame_end := e0 } (qs.map resultEv)
        = some ({ initState with
                    state := some STATE_NO_DATA,
                    command := c,
                    address := none,
                    data := [],
                    data_byte_cnt := 0,
                    showInstruction := 1,
                    timingViolation := "violation",
                    last_cs_asserted := t0,
                    last_start_time_byte := s0,
                    last_end_time_byte := e0,
                    cmd_frame_start := s0,
                    cmd_frame_end := e0 }, []) :=
      nodata_run cfg _ rfl qs
    have h4 : decode cfg
        { initState with
            state := some STATE_NO_DATA,
            command := c,
            address := none,
            data := [],
            data_byte_cnt := 0,
            showInstruction := 1,
            timingViolation := "violation",
            last_cs_asserted := t0,
            last_start_time_byte := s0,
            last_end_time_byte := e0,
            cmd_frame_start := s0,
            cmd_frame_end := e0 } (SpiEvent.disable sd ed)
        = some ({ initState with
                    state := some STATE_NO_DATA,
                    command := c,
                    address := none,
                    data := [],
                    data_byte_cnt := 0,
                    showInstruction := 1,
                    timingViolation := "violation",
                    last_cs_asserted := t0,
                    last_start_time_byte := s0,
                    last_end_time_byte := e0,
                    cmd_frame_start := s0,
                    cmd_frame_end := e0,
                    last_cs_deasserted := sd }, []) := by
      simp only [decode]
      unfold decodeDisable
      simp [hflt, STATE_NO_DATA, STATE_DATA]
    simp only [runFrom, h1, h2]
    rw [runFrom_append, h3]
    simp [runFrom, h4, hflt]
  · -- timing violations filter
    have h2 : decode cfg
        { initState with
            state := some STATE_CMD,
            last_cs_asserted := t0 }
        (SpiEvent.result s0 e0 c m)
        = some ({ initState with
                    state := some STATE_NO_DATA,
                    command := c,
                    address := none,
                    data := [],
                    data_byte_cnt := 0,
                    showInstruction := 0,
                    timingViolation := "violation",
                    last_cs_asserted := t0,
                    last_start_time_byte := s0,
                    last_end_time_byte := e0,
                    cmd_frame_start := s0,
                    cmd_frame_end := e0 },
                if calc_delta t0 s0 > cfg.timeCsToFirstByte then
                  [Frame.TimingViolation t0 s0 (calc_delta t0 s0) cfg.timeCsToFirstByte]
                else []) := by
      simp only [decode]
      unfold decodeResult
      by_cases hv : calc_delta t0 s0 > cfg.timeCsToFirstByte <;>
        simp [hflt, show_cmd, get_next_state, hc, STATE_CMD, indicate_violation, hv]
    have h3 : runFrom cfg
        { initState with
            state := some STATE_NO_DATA,
            command := c,
            address := none,
            data := [],
            data_byte_cnt := 0,
            showInstruction := 0,
            timingViolation := "violation",
            last_cs_asserted := t0,
            last_start_time_byte := s0,
            last_end_time_byte := e0,
            cmd_frame_start := s0,
            cmd_frame_end := e0 } (qs.map resultEv)
        = some ({ initState with
                    state := some STATE_NO_DATA,
                    command := c,
                    address := none,
                    data := [],
                    data_byte_cnt := 0,
                    showInstruction := 0,
                    timingViolation := "violation",
                    last_cs_asserted := t0,
                    last_start_time_byte := s0,
                    last_end_time_byte := e0,
                    cmd_frame_start := s0,
                    cmd_frame_end := e0 }, []) :=
      nodata_run cfg _ rfl qs
    simp only [runFrom, h1, h2]
    rw [runFrom_append, h3]
    by_cases hv2 : calc_delta e0 sd > cfg.timelastByteToCs
    · have h4 : decode cfg
          { initState with
              state := some STATE_NO_DATA,
              command := c,
              address := none,
              data := [],
              data_byte_cnt := 0,
              showInstruction := 0,
              timingViolation := "violation",
              last_cs_asserted := t0,
              last_start_time_byte := s0,
              last_end_time_byte := e0,
              cmd_frame_start := s0,
              cmd_frame_end := e0 } (SpiEvent.disable sd ed)
          = some ({ initState with
                      state := some STATE_NO_DATA,
                      command := c,
                      address := none,
                      data := [],
                      data_byte_cnt := 0,
                      showInstruction := 0,
                      timingViolation := "violation",
                      last_cs_asserted := t0,
                      last_start_time_byte := sd,
                      last_end_time_byte := ed,
                      cmd_frame_start := s0,
                      cmd_frame_end := e0,
                      last_cs_deasserted := sd },
                  [Frame.TimingViolation e0 sd (calc_delta e0 sd) cfg.timelastByteToCs]) := by
        simp only [decode]
        unfold decodeDisable
        simp [hflt, indicate_violation, hv2]
      by_cases hv1 : calc_delta t0 s0 > cfg.timeCsToFirstByte <;>
        simp [runFrom, h4, hflt, hv1, hv2]
    · have h4 : decode cfg
          { initState with
              state := some STATE_NO_DATA,
              command := c,
              address := none,
              data := [],
              data_byte_cnt := 0,
              showInstruction := 0,
              timingViolation := "violation",
              last_cs_asserted := t0,
              last_start_time_byte := s0,
              last_end_time_byte := e0,
              cmd_frame_start := s0,
              cmd_frame_end := e0 } (SpiEvent.disable sd ed)
          = some ({ initState with
                      state := some STATE_NO_DATA,
                      command := c,
                      address := none,
                      data := [],
                      data_byte_cnt := 0,
                      showInstruction := 0,
                      timingViolation := "violation",
                      last_cs_asserted := t0,
                      last_start_time_byte := s0,
                      last_end_time_byte := e0,
                      cmd_frame_start := s0,
                      cmd_frame_end := e0,
                      last_cs_deasserted := sd }, []) := by
        simp only [decode]
        unfold decodeDisable
        simp [hflt, hv2]
      by_cases hv1 : calc_delta t0 s0 > cfg.timeCsToFirstByte <;>
        simp [runFrom, h4, hflt, hv1, hv2]

/-- Witness for c4_unknown_cmd: unknown command 0xFF with the timing
filter, one NoData byte, deassert at 100. -/
theorem c4_unknown_cmd_witness :
    (runFrom (cfgT 1000000 5 1000000) initState
        ([SpiEvent.enable 1, SpiEvent.result 10 20 255 0] ++
         ([((30 : Int), (40 : Int), (170 : Nat), (0 : Nat))]).map resultEv ++
         [SpiEvent.disable 100 101])).map Prod.snd
      = some
        ((if (cfgT 1000000 5 1000000).filter_setting = "Timing_Violations" ∧
             calc_delta 1 10 > (cfgT 1000000 5 1000000).timeCsToFirstByte then
            [Frame.TimingViolation 1 10 (calc_delta 1 10)
               (cfgT 1000000 5 1000000).timeCsToFirstByte]
          else []) ++
         (if (cfgT 1000000 5 1000000).filter_setting = "Timing_Violations" ∧
             calc_delta 20 100 > (cfgT 1000000 5 1000000).timelastByteToCs then
            [Frame.TimingViolation 20 100 (calc_delta 20 100)
               (cfgT 1000000 5 1000000).timelastByteToCs]
          else [])) :=
  c4_unknown_cmd (cfgT 1000000 5 1000000) (Or.inr rfl) 255 rfl 1 10 20 0
    [(30, 40, 170, 0)] 100 101

/-- C5: a byte event never lets the filtering/violation logic corrupt the
parse: for two runs of the same byte event from the same state under
configurations sharing the filter setting (so only the timing thresholds,
and hence whether a violation frame is returned, may differ), the
resulting parse state, command, accumulated address, payload and byte
count coincide; and whenever frames were returned (a violation), the
rolling last-byte timestamps still end up at that byte event`s start/end,
so the next gap check uses the correct reference. -/
theorem c5_parse_unaffected (cfg1 cfg2 : Settings)
    (hf : cfg1.filter_setting = cfg2.filter_setting)
    (st : HLAState) (s e : Int) (m mi : Nat) (st1 st2 : HLAState) (fs1 fs2 : List Frame)
    (h1 : decode cfg1 st (SpiEvent.result s e m mi) = some (st1, fs1))
    (h2 : decode cfg2 st (SpiEvent.result s e m mi) = some (st2, fs2)) :
    (st1.state = st2.state ∧ st1.command = st2.command ∧ st1.address = st2.address ∧
     st1.data = st2.data ∧ st1.data_byte_cnt = st2.data_byte_cnt) ∧
    (fs1 ≠ [] → st1.last_start_time_byte = s ∧ st1.last_end_time_byte = e) := by
  simp only [decode] at h1 h2
  unfold decodeResult at h1 h2
  rw [← hf] at h2
  rcases hst : st.state with _ | st0
  · rw [hst] at h1; simp at h1
  · simp only [hst] at h1 h2
    by_cases h0 : st0 = STATE_CMD
    · rw [if_pos h0] at h1 h2
      by_cases hT : cfg1.filter_setting = "Timing_Violations"
      · rw [hT] at h1 h2
        simp [show_cmd] at h1 h2
        split at h1 <;> split at h2 <;>
          (try rw [Option.some.injEq, Prod.mk.injEq] at h1) <;>
          (try rw [Option.some.injEq, Prod.mk.injEq] at h2) <;>
          (obtain ⟨h1s, h1f⟩ := h1; obtain ⟨h2s, h2f⟩ := h2;
           subst h1s; subst h1f; subst h2s; subst h2f;
           exact ⟨by simp [indicate_violation],
                  fun hne => by first | exact absurd rfl hne | simp [indicate_violation]⟩)
      · rcases hsc : show_cmd cfg1.filter_setting m with _ | si
        · simp only [hsc] at h1; simp at h1
        · simp only [hsc] at h1 h2
          rw [if_neg hT] at h1 h2
          simp only [ite_self] at h1 h2
          rw [Option.some.injEq, Prod.mk.injEq] at h1 h2
          obtain ⟨h1s, h1f⟩ := h1; obtain ⟨h2s, h2f⟩ := h2
          subst h1s; subst h1f; subst h2s; subst h2f
          exact ⟨by simp, fun hne => absurd rfl hne⟩
    · rw [if_neg h0] at h1 h2
      by_cases hA : st0 = STATE_ADDR_H
      · rw [if_pos hA] at h1 h2
        by_cases hT : cfg1.filter_setting = "Timing_Violations"
        · rw [hT] at h1 h2
          simp at h1 h2
          split at h1 <;> split at h2 <;>
            (try rw [Option.some.injEq, Prod.mk.injEq] at h1) <;>
            (try rw [Option.some.injEq, Prod.mk.injEq] at h2) <;>
            (obtain ⟨h1s, h1f⟩ := h1; obtain ⟨h2s, h2f⟩ := h2;
             subst h1s; subst h1f; subst h2s; subst h2f;
             exact ⟨by simp [indicate_violation],
                    fun hne => by first | exact absurd rfl hne | simp [indicate_violation]⟩)
        · rw [if_neg hT] at h1 h2
          rw [Option.some.injEq, Prod.mk.injEq] at h1 h2
          obtain ⟨h1s, h1f⟩ := h1; obtain ⟨h2s, h2f⟩ := h2
          subst h1s; subst h1f; subst h2s; subst h2f
          exact ⟨by simp, fun hne => absurd rfl hne⟩
      · rw [if_neg hA] at h1 h2
        by_cases hL : st0 = STATE_ADDR_L
        · rw [if_pos hL] at h1 h2
          rcases hsa : st.address with _ | a
          · simp only [hsa] at h1; simp at h1
          · simp only [hsa] at h1 h2
            by_cases hT : cfg1.filter_setting = "Timing_Violations"
            · rw [hT] at h1 h2
              simp at h1 h2
              split at h1 <;> split at h2 <;>
                (try rw [Option.some.injEq, Prod.mk.injEq] at h1) <;>
                (try rw [Option.some.injEq, Prod.mk.injEq] at h2) <;>
                (obtain ⟨h1s, h1f⟩ := h1; obtain ⟨h2s, h2f⟩ := h2;
                 subst h1s; subst h1f; subst h2s; subst h2f;
                 exact ⟨by simp [indicate_violation],
                        fun hne => by first | exact absurd rfl hne | simp [indicate_violation]⟩)
            · rw [if_neg hT] at h1 h2
              rw [Option.some.injEq, Prod.mk.injEq] at h1 h2
              obtain ⟨h1s, h1f⟩ := h1; obtain ⟨h2s, h2f⟩ := h2
              subst h1s; subst h1f; subst h2s; subst h2f
              exact ⟨by simp, fun hne => absurd rfl hne⟩
        · rw [if_neg hL] at h1 h2
          by_cases hD : st0 = STATE_DATA
          · rw [if_pos hD] at h1 h2
            by_cases hcnt : st.data_byte_cnt = 0 <;>
              (first | rw [if_pos hcnt] at h1 h2 | rw [if_neg hcnt] at h1 h2) <;>
              rcases hfc : frame_config st.command with _ | c
            case pos.none => simp only [hfc] at h1; simp at h1
            case neg.none => simp only [hfc] at h1; simp at h1
            all_goals simp only [hfc] at h1 h2
            all_goals by_cases hdl : c.data_line = "miso" <;>
              (first | rw [if_pos hdl] at h1 h2 | rw [if_neg hdl] at h1 h2)
            all_goals by_cases hT : cfg1.filter_setting = "Timing_Violations"
            all_goals try (
              rw [if_neg hT] at h1 h2
              rw [Option.some.injEq, Prod.mk.injEq] at h1 h2
              obtain ⟨h1s, h1f⟩ := h1; obtain ⟨h2s, h2f⟩ := h2
              subst h1s; subst h1f; subst h2s; subst h2f
              exact ⟨by simp, fun hne => absurd rfl hne⟩)
            all_goals (
              rw [hT] at h1 h2
              simp at h1 h2
              split at h1 <;> split at h2 <;>
                (try rw [Option.some.injEq, Prod.mk.injEq] at h1) <;>
                (try rw [Option.some.injEq, Prod.mk.injEq] at h2) <;>
                (obtain ⟨h1s, h1f⟩ := h1; obtain ⟨h2s, h2f⟩ := h2;
                 subst h1s; subst h1f; subst h2s; subst h2f;
                 exact ⟨by simp [indicate_violation],
                        fun hne => by first | exact absurd rfl hne | simp [indicate_violation]⟩))
          · rw [if_neg hD] at h1 h2
            rw [Option.some.injEq, Prod.mk.injEq] at h1 h2
            obtain ⟨h1s, h1f⟩ := h1; obtain ⟨h2s, h2f⟩ := h2
            subst h1s; subst h1f; subst h2s; subst h2f
            exact ⟨by simp, fun hne => absurd rfl hne⟩

/-- Witness for c5_parse_unaffected: command byte 0x03 on [10,20] after an
assert at t = 1, threshold 5 (violation returned) versus threshold 100 (no
frame). -/
theorem c5_parse_unaffected_witness :
    ((exAfterCmd.state = exAfterCmd.state ∧ exAfterCmd.command = exAfterCmd.command ∧
      exAfterCmd.address = exAfterCmd.address ∧ exAfterCmd.data = exAfterCmd.data ∧
      exAfterCmd.data_byte_cnt = exAfterCmd.data_byte_cnt) ∧
     ([Frame.TimingViolation 1 10 9 5] ≠ [] →
       exAfterCmd.last_start_time_byte = 10 ∧ exAfterCmd.last_end_time_byte = 20)) :=
  c5_parse_unaffected (cfgT 5 1000000 1000000) (cfgT 100 1000000 1000000) rfl
    exAfterEnable 10 20 3 0 exAfterCmd exAfterCmd
    [Frame.TimingViolation 1 10 9 5] [] rfl rfl


/-- C6 counterexample: the claim fails for a transaction that reaches the
data state with ZERO data bytes.  Under the Address filter with configured
value 4386 = 0x1122, the transaction assert, command 0x13, address bytes
0x11 and 0x22, deassert reaches STATE_DATA with decoded address 4386 equal
to the configured value, yet at deassert the decoder emits no frame at all:
showInfo resolves to 1 and the Command and Address frames are built, but
reading the never-assigned data_frame_start for the Data frame fails (the
AttributeError of line 291, modelled as none), so the claimed normal
Command/Address/Data emission does not happen. -/
theorem c6_counterexample :
    runFrom (cfgAddr 4386) initState
        [SpiEvent.enable 0, SpiEvent.result 10 20 0x13 0, SpiEvent.result 20 30 0x11 0,
         SpiEvent.result 30 40 0x22 0, SpiEvent.disable 50 51] = none
    ∧ (runFrom (cfgAddr 4386) initState
        [SpiEvent.enable 0, SpiEvent.result 10 20 0x13 0, SpiEvent.result 20 30 0x11 0,
         SpiEvent.result 30 40 0x22 0]).map (fun p => (p.1.state, p.1.address))
      = some (some STATE_DATA, some 4386) := ⟨rfl, rfl⟩

/-- C6 (amended): with the Address filter, a well-formed configured value
v and mark_command_only = no, a transaction that reaches the data state
AND carries a data byte (recognized command, both address bytes, one data
byte) emits the normal Command/Address/Data set at deassert exactly when v
equals the decoded 16-bit address, and emits nothing when it differs; the
byte steps before deassert emit nothing in either case, so the comparison
is only observable at deassert.  (A zero-data transaction that reaches the
data state with a matching address emits nothing: the Data frame read of
the unset or stale data-frame timestamps aborts or misreports instead —
see c6_counterexample and C10.) -/
theorem c6_address_filter (cmd v hi lo d : Nat)
    (h : cmd = 0x13 ∨ cmd = 0x03 ∨ cmd = 0x12 ∨ cmd = 0x02) :
    (runFrom (cfgAddr v) initState
        [SpiEvent.enable 0, SpiEvent.result 10 20 cmd 0, SpiEvent.result 20 30 hi 0,
         SpiEvent.result 30 40 lo 0, SpiEvent.result 40 50 d d,
         SpiEvent.disable 60 61]).map Prod.snd
      = some (if (hi <<< 8) ||| lo = v then
              [Frame.Command 10 20 (cmd_to_str cmd),
               Frame.Address 20 40 ((hi <<< 8) ||| lo) (pyHex ((hi <<< 8) ||| lo)),
               Frame.Data 40 50 [d]] else [])
    ∧ (runFrom (cfgAddr v) initState
        [SpiEvent.enable 0, SpiEvent.result 10 20 cmd 0, SpiEvent.result 20 30 hi 0,
         SpiEvent.result 30 40 lo 0, SpiEvent.result 40 50 d d]).map Prod.snd
      = some [] := by
  rcases h with h | h | h | h <;> subst h <;> refine ⟨?_, rfl⟩ <;>
    by_cases hv : (hi <<< 8) ||| lo = v
  all_goals
    simp [runFrom, decode, decodeResult, decodeDisable, decodeEnable, showInfoCalc,
      cfgAddr, initState, show_cmd, frame_config, get_next_state, get_last_state,
      cmd_to_str, indicate_violation, calc_delta, hv,
      STATE_CMD, STATE_ADDR_H, STATE_ADDR_L, STATE_DATA, STATE_NO_DATA]

/-- Witness for c6_address_filter: command 0x13, address bytes 1 and 2,
configured value 258 = 0x0102 (match). -/
theorem c6_address_filter_witness :
    (runFrom (cfgAddr 258) initState
        [SpiEvent.enable 0, SpiEvent.result 10 20 0x13 0, SpiEvent.result 20 30 1 0,
         SpiEvent.result 30 40 2 0, SpiEvent.result 40 50 3 3,
         SpiEvent.disable 60 61]).map Prod.snd
      = some (if (1 <<< 8) ||| 2 = 258 then
              [Frame.Command 10 20 (cmd_to_str 0x13),
               Frame.Address 20 40 ((1 <<< 8) ||| 2) (pyHex ((1 <<< 8) ||| 2)),
               Frame.Data 40 50 [3]] else []) :=
  (c6_address_filter 0x13 258 1 2 3 (Or.inl rfl)).1

/-- C7: at deassert, for any transaction sitting in the data state whose
show/address-match condition holds, mark_command_only = yes makes the
decoder emit exactly one Command frame (spanning the command byte) and no
Address or Data frame; only last_cs_deasserted and showInfo change. -/
theorem c7_mark_command_only (cfg : Settings) (st : HLAState) (s e : Int)
    (hT : cfg.filter_setting ≠ "Timing_Violations")
    (hY : cfg.highlight_cmd_only = "yes")
    (hD : st.state = some STATE_DATA)
    (hA : cfg.filter_setting = "Address" →
          ∃ v, cfg.address_value = some v ∧ st.address = some v) :
    decode cfg st (SpiEvent.disable s e)
      = some ({ st with last_cs_deasserted := s, showInfo := 1 },
              [Frame.Command st.cmd_frame_start st.cmd_frame_end (cmd_to_str st.command)]) := by
  by_cases hAd : cfg.filter_setting = "Address"
  · obtain ⟨v, hv, ha⟩ := hA hAd
    simp [decode, decodeDisable, showInfoCalc, hT, hY, hD, hAd, hv, ha]
  · simp [decode, decodeDisable, showInfoCalc, hT, hY, hD, hAd]

/-- Witness for c7_mark_command_only: no filter, mark-command-only yes,
state in the data phase, deassert on [9,10]. -/
theorem c7_mark_command_only_witness :
    decode cfgNFyes exStateData (SpiEvent.disable 9 10)
      = some ({ exStateData with last_cs_deasserted := 9, showInfo := 1 },
              [Frame.Command exStateData.cmd_frame_start exStateData.cmd_frame_end
                 (cmd_to_str exStateData.command)]) :=
  c7_mark_command_only cfgNFyes exStateData 9 10 (by decide) rfl rfl
    (fun h => absurd h (by decide))

end VPC3
